import Mathlib

/-
Verification development for the d-brain ingestion-and-synthesis core.

Shallow embedding of:
  src/d_brain/utils.py                (handle_rate_limit)
  src/d_brain/services/processor.py   (ClaudeProcessor)
  src/d_brain/services/git.py         (VaultGit)
  src/d_brain/bot/handlers/process.py (cmd_process, report computation)
  src/d_brain/bot/handlers/weekly.py  (cmd_weekly, report computation)

External collaborators (VaultStorage.read_daily, SessionStore.get_today,
the httpx transport, the git subprocess, Python date rendering) are
interface-only per the specification and are modelled as abstract
parameters: theorems quantify over their behaviour.
-/

namespace DBrain

/-- Split a character list at the first occurrence of `sep`: the part
before and the part after, or `none` when `sep` does not occur. -/
def findSplit (sep : List Char) : List Char → Option (List Char × List Char)
  | [] => if sep.isEmpty then some ([], []) else none
  | c :: rest =>
    if sep.isPrefixOf (c :: rest) then some ([], (c :: rest).drop sep.length)
    else
      match findSplit sep rest with
      | some (pre, post) => some (c :: pre, post)
      | none => none

/-- Python `sub in s` substring test. -/
def containsSub (s sub : String) : Bool :=
  (findSplit sub.data s.data).isSome

/-- Python `s.partition(sep)`: `(before, sep, after)` at the first
occurrence, `(s, "", "")` when `sep` does not occur. -/
def pyPartition (s sep : String) : String × String × String :=
  match findSplit sep.data s.data with
  | some (pre, post) => (String.mk pre, sep, String.mk post)
  | none => (s, "", "")

/-- Python `s.lower()` as it acts on the ASCII letters the rate-limit
markers consist of. -/
def pyLower (s : String) : String :=
  String.mk (s.data.map Char.toLower)

/-- Python `s.strip()`: drop whitespace from both ends. -/
def pyStrip (s : String) : String :=
  String.mk
    (((s.data.dropWhile Char.isWhitespace).reverse.dropWhile
      Char.isWhitespace).reverse)

/-- Python `sep.join(l)`. -/
def pyJoin (sep : String) : List String → String
  | [] => ""
  | [x] => x
  | x :: xs => x ++ sep ++ pyJoin sep xs

/-- Python slice `s[a:b]` on a string: clamping drop/take on the
character list. -/
def pySlice (s : String) (a b : Nat) : String :=
  String.mk ((s.data.drop a).take (b - a))

/-- A Python exception as seen by the retry wrapper: `str(e)` is the
message; `RateLimitException` (utils.py line 10) is a distinct class. -/
inductive PyExc where
  | generic (msg : String)
  | rateLimitExc (msg : String)
deriving DecidableEq, Repr

/-- The message `str(e)` of an exception. -/
def PyExc.msg : PyExc → String
  | .generic m => m
  | .rateLimitExc m => m

/-- utils.py line 43-44: `error_str = str(e).lower()` and the three
substring markers classifying a failure as rate-limit. -/
def isRateLimit (msg : String) : Bool :=
  let error_str := pyLower msg
  containsSub error_str "429" || containsSub error_str "rate limit" ||
    containsSub error_str "too many requests"

/-- utils.py lines 38-61: the body of `handle_rate_limit`, as a loop over
the list of attempt indices (`for attempt in range(max_retries + 1)`).
The wrapped operation is `f : Nat → Except PyExc α` (its result at each
attempt); returns the final result, the number of invocation attempts
performed, and the list of sleep durations in order. The `[]` case is the
fall-through after the loop (line 61, unreachable from `range`). -/
def retryLoop (f : Nat → Except PyExc α) (delay : ℚ) (maxRetries : Nat) :
    List Nat → Except PyExc α × Nat × List ℚ
  | [] => (Except.error (PyExc.rateLimitExc
      ("Function failed after " ++ toString maxRetries ++ " retries")), 0, [])
  | attempt :: rest =>
    match f attempt with
    | Except.ok v => (Except.ok v, 1, [])
    | Except.error e =>
      if isRateLimit e.msg then
        if attempt < maxRetries then
          let r := retryLoop f delay maxRetries rest
          (r.1, r.2.1 + 1, delay * 2 ^ attempt :: r.2.2)
        else
          (Except.error (PyExc.rateLimitExc
            ("Rate limit exceeded after " ++ toString maxRetries ++
              " retries: " ++ e.msg)), 1, [])
      else
        (Except.error e, 1, [])

/-- utils.py `handle_rate_limit(func, *args, delay, max_retries)`:
run the loop over `range(max_retries + 1)`. -/
def handle_rate_limit (f : Nat → Except PyExc α) (delay : ℚ)
    (maxRetries : Nat) : Except PyExc α × Nat × List ℚ :=
  retryLoop f delay maxRetries (List.range (maxRetries + 1))

/-- The `Report` dict produced by the workflow entry points (processor.py):
either a `report` key or an `error` key, plus `processed_entries`. -/
structure Report where
  report : Option String
  error : Option String
  processed_entries : Nat
deriving DecidableEq, Repr

/-- The spec's sum-type invariant on a Report: exactly one of
`report`/`error` is present, and an `error` comes with a zero count. -/
def reportInv (r : Report) : Prop :=
  (r.report.isSome ↔ r.error.isNone) ∧
    (r.error.isSome → r.processed_entries = 0)

/-- One entry of today's session log (SessionStore), a dict whose keys
`ts`, `type`, `text` are read with `.get` defaults in processor.py. -/
structure SessionEntry where
  ts : Option String
  etype : Option String
  text : Option String
deriving DecidableEq, Repr

/-- The external collaborators of `ClaudeProcessor`, interface-only per
the specification: the configured credential, the HTTP transport behind
`_call_llm` (system prompt and user prompt to result or raised
exception), `VaultStorage.read_daily` (days as ordinal integers, so
`today - timedelta(days=i)` is integer subtraction), Python string
rendering of a date, `SessionStore.get_today`, and the vault path. -/
structure Env where
  groq_api_key : String
  http : String → String → Except PyExc String
  read_daily : Int → String
  dateStr : Int → String
  get_today : Int → List SessionEntry
  vault_path : String

/-- The fixed user-facing guidance string of `_call_llm` when no
credential is configured (processor.py line 45). -/
def noKeyMsg : String :=
  "❌ GROQ_API_KEY не настроен. Добавьте ключ в переменные окружения."

/-- processor.py lines 34-72, `_call_llm`: with no key, return the
guidance string and perform no HTTP request; otherwise perform one HTTP
request and return its outcome (the `except httpx.HTTPStatusError`
branch re-raises in both of its arms, so the transport's exception
propagates unchanged). Second component counts HTTP requests. -/
def call_llm (env : Env) (system_prompt user_prompt : String) :
    Except PyExc String × Nat :=
  if env.groq_api_key = "" then (Except.ok noKeyMsg, 0)
  else (env.http system_prompt user_prompt, 1)

/-- processor.py lines 74-92, `_get_session_context`: today's session
entries rendered as a delimited context block; at most the last 10
entries, time sliced from the timestamp, text truncated to 80 chars,
empty-text entries skipped. -/
def get_session_context (env : Env) (user_id : Int) : String :=
  if user_id = 0 then ""
  else
    let today_entries := env.get_today user_id
    if today_entries = [] then ""
    else
      let tail10 := today_entries.drop (today_entries.length - 10)
      let lines := tail10.foldl (fun acc entry =>
        let ts := pySlice (entry.ts.getD "") 11 16
        let entry_type := entry.etype.getD "unknown"
        let text := pySlice (entry.text.getD "") 0 80
        if text ≠ "" then acc ++ [ts ++ " [" ++ entry_type ++ "] " ++ text]
        else acc) ["=== СЕГОДНЯШНИЕ ЗАПИСИ ==="]
      let lines := lines ++ ["=== КОНЕЦ ЗАПИСЕЙ ===\n"]
      pyJoin "\n" lines

/-- processor.py lines 142-156: fixed system prompt of daily synthesis. -/
def dailySystemPrompt : String :=
  "Ты — персональный ассистент d-brain. Твоя задача — обработать дневные записи пользователя.\n\nПРАВИЛА:\n1. Проанализируй все записи за день\n2. Выдели ключевые мысли и идеи\n3. Найди задачи (явные и неявные)\n4. Определи эмоциональный фон\n5. Предложи действия\n\nФОРМАТ ОТВЕТА:\n- Используй ТОЛЬКО HTML-теги для Telegram: <b>, <i>, <code>\n- НЕ используй markdown (**, ##, ```)\n- Начни с: 📊 <b>Обработка за ДАТУ</b>\n- Будь кратким — лимит Telegram 4096 символов\n- Пиши на русском языке"

/-- The identical tail of the three entry points (processor.py lines
162-163, 186-187, 228-236): `output = await self._call_llm(...)`
followed by `return` of the success Report with count 1; the LLM call's
exception propagates. Returns (outcome, `_call_llm` invocations, HTTP
requests). -/
def llmStep (env : Env) (system_prompt user_prompt : String) :
    Except PyExc Report × Nat × Nat :=
  match call_llm env system_prompt user_prompt with
  | (Except.ok output, n) => (Except.ok ⟨some output, none, 1⟩, 1, n)
  | (Except.error e, n) => (Except.error e, 1, n)

/-- processor.py lines 127-163, `process_daily`: read the day via
Storage; empty content yields the error Report with no LLM use;
otherwise one `_call_llm` invocation whose exception propagates. -/
def process_daily (env : Env) (day : Int) :
    Except PyExc Report × Nat × Nat :=
  let daily_content := env.read_daily day
  if daily_content = "" then
    (Except.ok ⟨none, some ("Нет записей за " ++ env.dateStr day), 0⟩, 0, 0)
  else
    llmStep env dailySystemPrompt
      ("Сегодня " ++ env.dateStr day ++ ". Обработай записи за день:\n\n" ++
        daily_content)

/-- processor.py lines 170-184: system prompt of `execute_prompt`,
embedding the date, the vault path and the session context block. -/
def executeSystemPrompt (env : Env) (today : Int) (user_id : Int) : String :=
  "Ты — персональный ассистент d-brain.\n\nКОНТЕКСТ:\n- Дата: " ++
    env.dateStr today ++ "\n- Vault: " ++ env.vault_path ++ "\n\n" ++
    get_session_context env user_id ++
    "\n\nПРАВИЛА:\n- Отвечай кратко и по делу\n- Используй ТОЛЬКО HTML-теги для Telegram: <b>, <i>, <code>\n- НЕ используй markdown (**, ##, ```)\n- Начни с emoji и <b>заголовка</b>\n- Лимит 4096 символов\n- Пиши на русском языке"

/-- processor.py lines 165-187, `execute_prompt`: one `_call_llm`
invocation on the session-enriched system prompt; success yields a
Report with count 1, an exception propagates. -/
def execute_prompt (env : Env) (today : Int) (user_prompt : String)
    (user_id : Int) : Except PyExc Report × Nat × Nat :=
  llmStep env (executeSystemPrompt env today user_id) user_prompt

/-- processor.py lines 194-201: the `week_content` list — for
`i in range(7)`, `day = today - timedelta(days=i)`; non-empty days
contribute a block labeled with the date. -/
def weekContent (env : Env) (today : Int) : List String :=
  (List.range 7).filterMap (fun (i : ℕ) =>
    let day := today - (i : Int)
    let content := env.read_daily day
    if content = "" then none
    else some ("--- " ++ env.dateStr day ++ " ---\n" ++ content))

/-- processor.py lines 208-222: fixed system prompt of weekly
synthesis. -/
def weeklySystemPrompt : String :=
  "Ты — персональный ассистент d-brain. Сгенерируй недельный дайджест.\n\nПРАВИЛА:\n1. Проанализируй записи за неделю\n2. Выдели главные темы и тренды\n3. Отметь победы и достижения\n4. Определи вызовы и проблемы\n5. Предложи фокус на следующую неделю\n\nФОРМАТ ОТВЕТА:\n- Используй ТОЛЬКО HTML-теги для Telegram: <b>, <i>, <code>\n- НЕ используй markdown\n- Начни с: 📅 <b>Недельный дайджест</b>\n- Будь кратким — лимит 4096 символов\n- Пиши на русском языке"

/-- The user prompt of weekly synthesis (processor.py lines 224-226). -/
def weeklyUserPrompt (env : Env) (today : Int) : String :=
  "Сегодня " ++ env.dateStr today ++ ". Вот записи за неделю:\n\n" ++
    pyJoin "\n\n" (weekContent env today)

/-- processor.py lines 189-236, `generate_weekly`: collect the trailing
7 days; all-empty yields the error Report with no LLM use; otherwise one
`_call_llm` invocation on the joined content. The summary-persistence
step (lines 230-234) sits in a try/except whose failure is logged and
swallowed, so it affects no returned field and no raised exception; it
is therefore not part of this value-level model. Returns (outcome,
`_call_llm` invocations, HTTP requests). -/
def generate_weekly (env : Env) (today : Int) :
    Except PyExc Report × Nat × Nat :=
  let week_content := weekContent env today
  if week_content = [] then
    (Except.ok ⟨none, some "Нет записей за последнюю неделю", 0⟩, 0, 0)
  else
    llmStep env weeklySystemPrompt (weeklyUserPrompt env today)

/-- handlers/process.py lines 54-55: the rate-limit sniff of
`cmd_process`'s except clause (note: no "too many requests" marker
here, unlike utils.py). -/
def handlerIsRateLimit (msg : String) : Bool :=
  let error_str := pyLower msg
  containsSub error_str "429" || containsSub error_str "rate limit"

/-- handlers/process.py lines 45-58: the `report` value computed by
`cmd_process` — `process_daily` wrapped in `handle_rate_limit` with
delay 2.0 and max_retries 3, any escaping exception converted to an
error Report (a fixed message for rate-limit-looking ones). The
collaborators are deterministic here, so each attempt re-runs
`process_daily` with the same outcome. -/
def cmd_process_report (env : Env) (today : Int) : Report :=
  match (handle_rate_limit (fun _ => (process_daily env today).1) 2 3).1 with
  | Except.ok r => r
  | Except.error e =>
    if handlerIsRateLimit e.msg then
      ⟨none, some "⚠️ Превышен лимит запросов. Попробуйте позже.", 0⟩
    else ⟨none, some e.msg, 0⟩

/-- handlers/weekly.py lines 35-39: the `report` value computed by
`cmd_weekly` — `generate_weekly` called directly (no retry wrapper),
any escaping exception converted to an error Report via `str(e)`. -/
def cmd_weekly_report (env : Env) (today : Int) : Report :=
  match (generate_weekly env today).1 with
  | Except.ok r => r
  | Except.error e => ⟨none, some e.msg, 0⟩

/-- A git subprocess command issued by `VaultGit` (git.py). `mkdirP`
stands for the `self.vault_path.mkdir(parents=True, exist_ok=True)`
filesystem call before a clone (git.py line 125). -/
inductive GitCmd where
  | statusPorcelain
  | addAll
  | commit (msg : String)
  | push
  | mkdirP
  | clone (branch url : String)
  | setUrl (url : String)
  | pull (branch : String)
  | config (key value : String)
deriving DecidableEq, Repr

/-- The observable behaviour of the git subprocess and filesystem for one
vault directory: the `status --porcelain` output and the return codes of
the mutating commands, plus whether `<vault>/.git` exists. -/
structure GitWorld where
  statusOut : String
  addRc : Int
  commitRc : Int
  pushRc : Int
  pullRc : Int
  cloneRc : Int
  dotGitExists : Bool
deriving DecidableEq, Repr

/-- git.py lines 26-29, `get_status`: the porcelain output, plus the
trace of commands run. -/
def get_status (w : GitWorld) : String × List GitCmd :=
  (w.statusOut, [GitCmd.statusPorcelain])

/-- git.py lines 31-33, `has_changes`:
`bool(self.get_status().strip())`. -/
def has_changes (w : GitWorld) : Bool × List GitCmd :=
  (pyStrip (get_status w).1 ≠ "", (get_status w).2)

/-- git.py lines 35-61, `commit_changes`: no-op `false` without changes;
otherwise stage everything and commit, `false` on a failing step,
`true` on success. Second component is the trace of commands run. -/
def commit_changes (w : GitWorld) (message : String) :
    Bool × List GitCmd :=
  if (has_changes w).1 = false then (false, (has_changes w).2)
  else if w.addRc ≠ 0 then
    (false, (has_changes w).2 ++ [GitCmd.addAll])
  else if w.commitRc ≠ 0 then
    (false, (has_changes w).2 ++ [GitCmd.addAll, GitCmd.commit message])
  else
    (true, (has_changes w).2 ++ [GitCmd.addAll, GitCmd.commit message])

/-- git.py lines 63-75, `push`: `true` iff the push exits zero. -/
def push (w : GitWorld) : Bool × List GitCmd :=
  (w.pushRc = 0, [GitCmd.push])

/-- git.py lines 77-88, `commit_and_push`: push only if a commit was
made, else `true` (absence of changes is not an error). -/
def commit_and_push (w : GitWorld) (message : String) :
    Bool × List GitCmd :=
  let c := commit_changes w message
  if c.1 then ((push w).1, c.2 ++ (push w).2)
  else (true, c.2)

/-- How a command changes the observable world: a successful commit
leaves a clean tree; reads, config and remote operations leave the
status and return codes unchanged. -/
def stepWorld (w : GitWorld) : GitCmd → GitWorld
  | GitCmd.commit _ =>
    if w.commitRc = 0 then ⟨"", w.addRc, w.commitRc, w.pushRc, w.pullRc,
      w.cloneRc, w.dotGitExists⟩ else w
  | _ => w

/-- Run a trace of commands against a world. -/
def runGit (w : GitWorld) (t : List GitCmd) : GitWorld :=
  t.foldl stepWorld w

/-- git.py lines 114-119: the authenticated URL — inject the token into
the URL's authority component when a token is given and the URL has no
embedded credentials, via `git_url.partition("://")`. -/
def auth_url (git_url token : String) : String :=
  if token ≠ "" ∧ containsSub git_url "@" = false then
    let p := pyPartition git_url "://"
    p.1 ++ p.2.1 ++ token ++ "@" ++ p.2.2
  else git_url

/-- git.py lines 90-155, `ensure_vault`: failure without a URL; clone
when `<vault>/.git` is absent (after `mkdir -p`); otherwise re-point the
remote to the authenticated URL and pull the branch; on success finish
by configuring the local commit identity. -/
def ensure_vault (w : GitWorld) (git_url branch token username email :
    String) : Bool × List GitCmd :=
  if git_url = "" then (false, [])
  else
    let authUrl := auth_url git_url token
    if w.dotGitExists = false then
      if w.cloneRc ≠ 0 then
        (false, [GitCmd.mkdirP, GitCmd.clone branch authUrl])
      else
        (true, [GitCmd.mkdirP, GitCmd.clone branch authUrl,
          GitCmd.config "user.name" username,
          GitCmd.config "user.email" email])
    else
      if w.pullRc ≠ 0 then
        (false, [GitCmd.setUrl authUrl, GitCmd.pull branch])
      else
        (true, [GitCmd.setUrl authUrl, GitCmd.pull branch,
          GitCmd.config "user.name" username,
          GitCmd.config "user.email" email])

/-- Concrete collaborators: a vault with an empty day everywhere. -/
def envEmptyDay : Env :=
  ⟨"key", fun _ _ => Except.ok "ответ", fun _ => "", fun _ => "2025-01-02",
    fun _ => [], "/vault"⟩

/-- Concrete collaborators: no credential configured, content present. -/
def envNoKey : Env :=
  ⟨"", fun _ _ => Except.error (PyExc.generic "no transport"),
    fun _ => "запись", fun _ => "2025-01-02", fun _ => [], "/vault"⟩

/-- Concrete collaborators: the transport always raises a failure whose
description is not rate-limit-classified. -/
def envBoom : Env :=
  ⟨"key", fun _ _ => Except.error (PyExc.generic "boom"), fun _ => "note",
    fun _ => "2025-01-02", fun _ => [], "/vault"⟩

/-- Concrete collaborators: the transport always raises a 429-classified
failure; only today has content. -/
def env429 : Env :=
  ⟨"key", fun _ _ => Except.error (PyExc.generic "429 Too Many Requests"),
    fun d => if d = 0 then "запись" else "", fun _ => "2025-01-02",
    fun _ => [], "/vault"⟩

/-- Concrete collaborators: a succeeding transport; only today has
content. -/
def envOk : Env :=
  ⟨"key", fun _ _ => Except.ok "дайджест",
    fun d => if d = 0 then "запись" else "", fun _ => "2025-01-02",
    fun _ => [], "/vault"⟩

/-- A vault checkout with a clean working tree. -/
def wClean : GitWorld := ⟨"", 0, 0, 0, 0, 0, true⟩

/-- A vault checkout with an uncommitted modification. -/
def wDirty : GitWorld := ⟨" M notes.md\n", 0, 0, 0, 0, 0, true⟩

/-!  Theorems.  -/

/-- A list map by a left multiple sums to the multiple of the sums. -/
theorem sum_map_mul_left_q (D : ℚ) (g : Nat → ℚ) (l : List Nat) :
    (l.map (fun k => D * g k)).sum = D * (l.map g).sum := by
  induction l with
  | nil => simp
  | cons x xs ih => simp [ih, mul_add]

/-- One non-final loop iteration on a rate-limit-classified failure:
sleep `D * 2 ^ attempt`, then continue with the remaining attempts. -/
theorem retryLoop_cons_rl {α : Type} (f : Nat → Except PyExc α) (D : ℚ)
    (N attempt : Nat) (rest : List Nat) (e : PyExc)
    (hf : f attempt = Except.error e) (he : isRateLimit e.msg = true)
    (hlt : attempt < N) :
    retryLoop f D N (attempt :: rest) =
      ((retryLoop f D N rest).1, (retryLoop f D N rest).2.1 + 1,
        D * 2 ^ attempt :: (retryLoop f D N rest).2.2) := by
  simp [retryLoop, hf, he, hlt]

/-- The final loop iteration on a rate-limit-classified failure raises
the rate-limit-exhausted exception. -/
theorem retryLoop_last_rl {α : Type} (f : Nat → Except PyExc α) (D : ℚ)
    (N : Nat) (rest : List Nat) (e : PyExc) (hf : f N = Except.error e)
    (he : isRateLimit e.msg = true) :
    retryLoop f D N (N :: rest) =
      (Except.error (PyExc.rateLimitExc ("Rate limit exceeded after " ++
        toString N ++ " retries: " ++ e.msg)), 1, []) := by
  simp [retryLoop, hf, he]

/-- Running the retry loop from attempt `a` with `a + k = N` against an
operation that always raises a rate-limit-classified failure: `k + 1`
further attempts, a sleep of `D * 2 ^ j` after each non-final attempt
`j`, and the rate-limit-exhausted failure at the end. -/
theorem retryLoop_always_rl {α : Type} (es : Nat → PyExc)
    (h : ∀ k, isRateLimit (es k).msg = true) (D : ℚ) (N : Nat) :
    ∀ (k a : Nat), a + k = N →
      retryLoop (α := α) (fun j => Except.error (es j)) D N
          (List.range' a (k + 1)) =
        (Except.error (PyExc.rateLimitExc ("Rate limit exceeded after " ++
          toString N ++ " retries: " ++ (es N).msg)), k + 1,
          (List.range' a k).map (fun j => D * 2 ^ j)) := by
  intro k
  induction k with
  | zero =>
    intro a ha
    have ha' : a = N := by omega
    subst ha'
    have h1 : List.range' a 1 = [a] := rfl
    have h0 : List.range' a 0 = [] := rfl
    rw [h1, h0, retryLoop_last_rl _ D a [] (es a) rfl (h a)]
    simp
  | succ k ih =>
    intro a ha
    have haN : a < N := by omega
    have hsucc : List.range' a (k + 1 + 1) = a :: List.range' (a + 1) (k + 1) :=
      rfl
    have hsucc' : List.range' a (k + 1) = a :: List.range' (a + 1) k := rfl
    rw [hsucc, retryLoop_cons_rl _ D N a _ (es a) rfl (h a) haN,
      ih (a + 1) (by omega), hsucc']
    simp

/-- C1: for every max retry count `N ≥ 0` and base delay `D`, the retry
wrapper invoked against an operation that always raises a
rate-limit-classified failure performs exactly `N + 1` invocation
attempts, the `k`-th wait (zero-based, after each of the first `N`
attempts) being `D * 2 ^ k` for a total suspension of
`D * (2 ^ 0 + ... + 2 ^ (N - 1))`, and then raises the distinguished
`RateLimitException` carrying the last underlying error's description
and the retry count. -/
theorem retry_exhaustion_backoff {α : Type} (es : Nat → PyExc) (D : ℚ)
    (N : Nat) (h : ∀ k, isRateLimit (es k).msg = true) :
    handle_rate_limit (α := α) (fun j => Except.error (es j)) D N =
      (Except.error (PyExc.rateLimitExc ("Rate limit exceeded after " ++
        toString N ++ " retries: " ++ (es N).msg)), N + 1,
        (List.range N).map (fun k => D * 2 ^ k)) ∧
    ((List.range N).map (fun k => D * 2 ^ k)).sum =
      D * ((List.range N).map (fun k => (2 : ℚ) ^ k)).sum := by
  constructor
  · unfold handle_rate_limit
    rw [List.range_eq_range']
    rw [retryLoop_always_rl es h D N N 0 (by omega)]
    rw [← List.range_eq_range']
  · exact sum_map_mul_left_q D (fun k => (2 : ℚ) ^ k) (List.range N)

/-- Witness for C1: a concrete always-429 operation, delay 1, two
retries. -/
theorem retry_exhaustion_backoff_witness :
    handle_rate_limit (α := Unit)
        (fun _ => Except.error (PyExc.generic "HTTP 429")) 1 2 =
      (Except.error (PyExc.rateLimitExc ("Rate limit exceeded after " ++
        toString 2 ++ " retries: " ++ (PyExc.generic "HTTP 429").msg)),
        2 + 1, (List.range 2).map (fun k => (1 : ℚ) * 2 ^ k)) ∧
    ((List.range 2).map (fun k => (1 : ℚ) * 2 ^ k)).sum =
      1 * ((List.range 2).map (fun k => (2 : ℚ) ^ k)).sum :=
  retry_exhaustion_backoff (fun _ => PyExc.generic "HTTP 429") 1 2
    (fun _ => rfl)

/-- C2: an operation whose raised failure is not rate-limit-classified
is attempted exactly once, there is no sleep, and the original failure
propagates unchanged. -/
theorem non_rate_limit_single_attempt {α : Type}
    (f : Nat → Except PyExc α) (e : PyExc) (D : ℚ) (N : Nat)
    (hf : f 0 = Except.error e) (h : isRateLimit e.msg = false) :
    handle_rate_limit f D N = (Except.error e, 1, []) := by
  unfold handle_rate_limit
  have hr : List.range (N + 1) = 0 :: List.range' 1 N := by
    rw [List.range_eq_range']
    rfl
  rw [hr]
  simp [retryLoop, hf, h]

/-- Witness for C2: a concrete non-rate-limit failure. -/
theorem non_rate_limit_single_attempt_witness :
    handle_rate_limit (α := Unit)
        (fun _ => Except.error (PyExc.generic "boom")) 1 3 =
      (Except.error (PyExc.generic "boom"), 1, []) :=
  non_rate_limit_single_attempt _ (PyExc.generic "boom") 1 3 rfl rfl

/-- A successful pass through the shared LLM tail yields a Report
satisfying the sum-type invariant. -/
theorem llmStep_ok_inv (env : Env) (s u : String) (r : Report)
    (hr : (llmStep env s u).1 = Except.ok r) : reportInv r := by
  unfold llmStep call_llm at hr
  by_cases hk : env.groq_api_key = ""
  · simp [hk] at hr
    subst hr
    exact ⟨by simp, by simp⟩
  · cases he : env.http s u with
    | ok out =>
      simp [hk, he] at hr
      subst hr
      exact ⟨by simp, by simp⟩
    | error e2 => simp [hk, he] at hr

/-- C7: every Report returned by the three workflow entry points has
exactly one of `report`/`error` populated, and a populated `error`
comes with a processed count of zero. -/
theorem report_sum_type_invariant (env : Env) (day today uid : Int)
    (up : String) :
    (∀ r, (process_daily env day).1 = Except.ok r → reportInv r) ∧
    (∀ r, (execute_prompt env today up uid).1 = Except.ok r → reportInv r) ∧
    (∀ r, (generate_weekly env today).1 = Except.ok r → reportInv r) := by
  refine ⟨?_, ?_, ?_⟩
  · intro r hr
    by_cases hd : env.read_daily day = ""
    · simp only [process_daily] at hr
      rw [if_pos hd] at hr
      simp at hr
      subst hr
      exact ⟨by simp, by simp⟩
    · simp only [process_daily] at hr
      rw [if_neg hd] at hr
      exact llmStep_ok_inv _ _ _ _ hr
  · intro r hr
    simp only [execute_prompt] at hr
    exact llmStep_ok_inv _ _ _ _ hr
  · intro r hr
    by_cases hw : weekContent env today = []
    · simp only [generate_weekly] at hr
      rw [if_pos hw] at hr
      simp at hr
      subst hr
      exact ⟨by simp, by simp⟩
    · simp only [generate_weekly] at hr
      rw [if_neg hw] at hr
      exact llmStep_ok_inv _ _ _ _ hr

/-- Witness for C7: the successful weekly Report of a concrete run. -/
theorem report_sum_type_invariant_witness :
    reportInv ⟨some "дайджест", none, 1⟩ :=
  (report_sum_type_invariant envOk 0 0 0 "p").2.2 ⟨some "дайджест", none, 1⟩
    rfl

/-- C5: a day whose accumulated entries are empty yields the
no-entries error Report with processed count 0 and no LLM invocation
(both the `_call_llm` counter and the HTTP counter are zero). -/
theorem process_daily_empty_day (env : Env) (day : Int)
    (h : env.read_daily day = "") :
    process_daily env day =
      (Except.ok ⟨none, some ("Нет записей за " ++ env.dateStr day), 0⟩,
        0, 0) := by
  simp [process_daily, h]

/-- Witness for C5: a concrete empty vault. -/
theorem process_daily_empty_day_witness :
    process_daily envEmptyDay 0 =
      (Except.ok ⟨none, some ("Нет записей за " ++ envEmptyDay.dateStr 0),
        0⟩, 0, 0) :=
  process_daily_empty_day envEmptyDay 0 rfl

/-- C10: with an empty credential and a non-empty day, `process_daily`
performs no HTTP request and returns a success-shaped Report whose
`report` field is the fixed guidance string, with processed count 1 —
no `error` field and no exception. -/
theorem process_daily_no_key (env : Env) (day : Int)
    (hk : env.groq_api_key = "") (hc : env.read_daily day ≠ "") :
    process_daily env day =
      (Except.ok ⟨some noKeyMsg, none, 1⟩, 1, 0) := by
  simp [process_daily, hc, llmStep, call_llm, hk]

/-- Witness for C10: a concrete key-less configuration. -/
theorem process_daily_no_key_witness :
    process_daily envNoKey 0 =
      (Except.ok ⟨some noKeyMsg, none, 1⟩, 1, 0) :=
  process_daily_no_key envNoKey 0 rfl (by decide)

/-- C4 counterexample: it is not true that the workflow entry points
never let an exception escape — with a transport raising a
non-rate-limit failure on a non-empty day, `process_daily` returns the
raised exception to its caller instead of a Report. -/
theorem process_daily_exception_escapes :
    ¬ ∀ (env : Env) (day : Int), ∃ r,
        (process_daily env day).1 = Except.ok r := by
  intro hall
  obtain ⟨r, hr⟩ := hall envBoom 0
  revert hr
  simp [envBoom, process_daily, llmStep, call_llm, noKeyMsg]

/-- C4 amended: the entry points propagate LLM-transport exceptions to
their caller; it is the command handlers (`cmd_process`, `cmd_weekly`)
that catch every such exception and convert it into a Report with an
`error` field and processed count 0. -/
theorem handlers_convert_exceptions (env : Env) (today : Int) :
    (∀ e, (generate_weekly env today).1 = Except.error e →
      cmd_weekly_report env today = ⟨none, some e.msg, 0⟩) ∧
    (∀ e, (handle_rate_limit (fun _ => (process_daily env today).1) 2 3).1 =
        Except.error e →
      (cmd_process_report env today).report = none ∧
      (cmd_process_report env today).error.isSome = true ∧
      (cmd_process_report env today).processed_entries = 0) := by
  constructor
  · intro e he
    simp [cmd_weekly_report, he]
  · intro e he
    by_cases h : handlerIsRateLimit e.msg <;>
      simp [cmd_process_report, he, h]

/-- Witness for C4: both handler conversions at a concrete failing
transport. -/
theorem handlers_convert_exceptions_witness :
    cmd_weekly_report envBoom 0 = ⟨none, some "boom", 0⟩ ∧
    (cmd_process_report envBoom 0).error.isSome = true :=
  ⟨(handlers_convert_exceptions envBoom 0).1 (PyExc.generic "boom") rfl,
    ((handlers_convert_exceptions envBoom 0).2 (PyExc.generic "boom")
      rfl).2.1⟩

/-- C3: contrary to the specification, weekly synthesis does not go
through the retry wrapper. With a transport that always raises a
429-classified failure and a non-empty day, `generate_weekly` performs
exactly one LLM invocation (no retry, no backoff) and propagates the
exception, which `cmd_weekly` converts to an error Report on its first
occurrence. -/
theorem weekly_429_not_retried :
    generate_weekly env429 0 =
      (Except.error (PyExc.generic "429 Too Many Requests"), 1, 1) ∧
    cmd_weekly_report env429 0 =
      ⟨none, some "429 Too Many Requests", 0⟩ := by
  constructor <;> rfl

/-- The week-content loop equals: keep exactly the non-empty days among
the iterated ones (in iteration order) and render each as its
date-marked block. -/
theorem filterMap_block (env : Env) (today : Int) (l : List Nat) :
    l.filterMap (fun (i : ℕ) =>
      let day := today - (i : Int)
      let content := env.read_daily day
      if content = "" then none
      else some ("--- " ++ env.dateStr day ++ " ---\n" ++ content)) =
    ((l.map (fun (i : ℕ) => today - (i : Int))).filter
      (fun d => env.read_daily d ≠ "")).map
      (fun d => "--- " ++ env.dateStr d ++ " ---\n" ++ env.read_daily d) := by
  induction l with
  | nil => rfl
  | cons x xs ih =>
    by_cases h : env.read_daily (today - (x : Int)) = ""
    · simp only [List.filterMap_cons, List.map_cons, List.filter_cons]
      rw [ih]
      simp [h]
    · simp only [List.filterMap_cons, List.map_cons, List.filter_cons]
      rw [ih]
      simp [h]

/-- C6: weekly synthesis builds its content from exactly the non-empty
days among the trailing 7 ending today, each block prefixed with its
date marker, iterating from today backward (order preserved); all-empty
weeks yield the no-entries error Report with count 0 and no LLM call,
and a week with content together with a successful LLM call yields the
populated Report with count 1. -/
theorem weekly_prompt_and_outcomes (env : Env) (today : Int) :
    weekContent env today =
      (((List.range 7).map (fun (i : ℕ) => today - (i : Int))).filter
        (fun d => env.read_daily d ≠ "")).map
        (fun d => "--- " ++ env.dateStr d ++ " ---\n" ++ env.read_daily d) ∧
    ((∀ i : ℕ, i < 7 → env.read_daily (today - (i : Int)) = "") →
      generate_weekly env today =
        (Except.ok ⟨none, some "Нет записей за последнюю неделю", 0⟩,
          0, 0)) ∧
    (∀ out n, (∃ i : ℕ, i < 7 ∧ env.read_daily (today - (i : Int)) ≠ "") →
      call_llm env weeklySystemPrompt (weeklyUserPrompt env today) =
        (Except.ok out, n) →
      generate_weekly env today =
        (Except.ok ⟨some out, none, 1⟩, 1, n)) := by
  have hwc : weekContent env today =
      (((List.range 7).map (fun (i : ℕ) => today - (i : Int))).filter
        (fun d => env.read_daily d ≠ "")).map
        (fun d => "--- " ++ env.dateStr d ++ " ---\n" ++ env.read_daily d) :=
    filterMap_block env today (List.range 7)
  refine ⟨hwc, ?_, ?_⟩
  · intro hall
    have hfil : ((List.range 7).map (fun (i : ℕ) => today - (i : Int))).filter
        (fun d => env.read_daily d ≠ "") = [] := by
      rw [List.filter_eq_nil_iff]
      intro d hd
      rw [List.mem_map] at hd
      obtain ⟨i, hi, rfl⟩ := hd
      simp [hall i (List.mem_range.mp hi)]
    have hempty : weekContent env today = [] := by
      rw [hwc, hfil]
      rfl
    simp [generate_weekly, hempty]
  · intro out n hex hcl
    obtain ⟨i, hi, hne⟩ := hex
    have hmem : today - (i : Int) ∈
        ((List.range 7).map (fun (j : ℕ) => today - (j : Int))).filter
          (fun d => env.read_daily d ≠ "") := by
      rw [List.mem_filter]
      exact ⟨List.mem_map.mpr ⟨i, List.mem_range.mpr hi, rfl⟩,
        decide_eq_true hne⟩
    have hwne : weekContent env today ≠ [] := by
      rw [hwc]
      intro hnil
      rw [List.map_eq_nil_iff] at hnil
      rw [hnil] at hmem
      exact (List.not_mem_nil _) hmem
    simp only [generate_weekly]
    rw [if_neg hwne]
    unfold llmStep
    rw [hcl]

/-- Witness for C6: a concrete week whose only non-empty day is today,
with a succeeding transport. -/
theorem weekly_prompt_and_outcomes_witness :
    generate_weekly envOk 0 =
      (Except.ok ⟨some "дайджест", none, 1⟩, 1, 1) :=
  (weekly_prompt_and_outcomes envOk 0).2.2 "дайджест" 1
    ⟨0, by omega, by decide⟩ rfl

/-- C8: with no uncommitted modification, `commit_and_push` returns
`true` having run only the read-only status check — no commit and no
push; the world is unchanged, so a second call with no intervening
modification again returns `true` with no commit; and whenever a commit
was made, the call returns the push result. -/
theorem commit_and_push_idempotent (w : GitWorld) (m m2 : String) :
    (pyStrip w.statusOut = "" →
      commit_and_push w m = (true, [GitCmd.statusPorcelain]) ∧
      runGit w (commit_and_push w m).2 = w ∧
      commit_and_push (runGit w (commit_and_push w m).2) m2 =
        (true, [GitCmd.statusPorcelain])) ∧
    ((commit_changes w m).1 = true →
      (commit_and_push w m).1 = (push w).1) := by
  constructor
  · intro h
    have h1 : commit_and_push w m = (true, [GitCmd.statusPorcelain]) := by
      simp [commit_and_push, commit_changes, has_changes, get_status, h]
    refine ⟨h1, ?_, ?_⟩
    · rw [h1]
      rfl
    · rw [h1]
      show commit_and_push (runGit w [GitCmd.statusPorcelain]) m2 = _
      have hw : runGit w [GitCmd.statusPorcelain] = w := rfl
      rw [hw]
      simp [commit_and_push, commit_changes, has_changes, get_status, h]
  · intro hc
    simp [commit_and_push, hc]

/-- Witness for C8: a clean tree and a dirty tree with succeeding
subprocess calls. -/
theorem commit_and_push_idempotent_witness :
    commit_and_push wClean "chore: weekly digest" =
      (true, [GitCmd.statusPorcelain]) ∧
    (commit_and_push wDirty "chore: weekly digest").1 =
      (push wDirty).1 :=
  ⟨((commit_and_push_idempotent wClean "chore: weekly digest" "m").1
      rfl).1,
    (commit_and_push_idempotent wDirty "chore: weekly digest" "m").2
      (by decide)⟩

/-- C9: on a directory that already holds a checkout, `ensure_vault`
performs no clone — the trace starts by re-pointing the remote to the
authenticated URL and then pulls the configured branch; with no remote
URL supplied it returns failure (no exception in the model: the
function is total) having run nothing. -/
theorem ensure_vault_pull_not_clone (w : GitWorld)
    (url branch token username email : String) :
    (w.dotGitExists = true → url ≠ "" →
      (∀ b u, GitCmd.clone b u ∉
        (ensure_vault w url branch token username email).2) ∧
      ∃ rest, (ensure_vault w url branch token username email).2 =
        GitCmd.setUrl (auth_url url token) :: GitCmd.pull branch :: rest) ∧
    ensure_vault w "" branch token username email = (false, []) := by
  constructor
  · intro hg hu
    unfold ensure_vault
    rw [if_neg hu]
    rw [hg]
    by_cases hp : w.pullRc ≠ 0 <;> simp [hp]
  · simp [ensure_vault]

/-- Witness for C9: a concrete existing checkout with a token-bearing
URL, and the missing-URL case. -/
theorem ensure_vault_pull_not_clone_witness :
    (∃ rest, (ensure_vault wClean "https://github.com/u/r" "main" "tok"
        "d-brain-bot" "bot@d-brain.local").2 =
      GitCmd.setUrl (auth_url "https://github.com/u/r" "tok") ::
        GitCmd.pull "main" :: rest) ∧
    ensure_vault wClean "" "main" "tok" "d-brain-bot" "bot@d-brain.local" =
      (false, []) :=
  ⟨((ensure_vault_pull_not_clone wClean "https://github.com/u/r" "main"
      "tok" "d-brain-bot" "bot@d-brain.local").1 rfl (by decide)).2,
    (ensure_vault_pull_not_clone wClean "https://github.com/u/r" "main"
      "tok" "d-brain-bot" "bot@d-brain.local").2⟩

end DBrain
